import Mathlib

/-!
Verification of the lum service orchestrator and event broadcaster.

Shallow embedding of `src/service/service_manager.rs` and `src/event.rs`.
Asynchronous routines (service start/stop bodies, background tasks) are
modelled by passing their observable outcome as an explicit parameter;
the shared per-service status cells are modelled as fields of a single
manager state, addressed by service id.
-/

namespace Lum

/-- Error causes (`BoxedError` in the source) modelled by their display string. -/
abbrev BoxedError := String

/-- The display string of `tokio::time::error::Elapsed`, the value boxed into the
status when a start/stop routine times out. -/
def elapsedErr : BoxedError := "deadline has elapsed"

/-- Per-service lifecycle status. Modelled from the spec: the enum itself lives in
the missing `src/service/types.rs`; its variants and payloads are fixed by their
uses in `service_manager.rs` and the spec state machine. -/
inductive Status
| Stopped
| Starting
| Started
| Stopping
| FailedToStart (err : BoxedError)
| FailedToStop (err : BoxedError)
| RuntimeError (err : BoxedError)
deriving DecidableEq

/-- Service priority. Modelled from the spec: declared in the missing
`src/service/types.rs`; `Essential` and `Optional` are fixed by `status_tree`. -/
inductive Priority
| Essential
| Optional
deriving DecidableEq

/-- Errors returned by `start_service`. Modelled from the spec: declared in the
missing `src/service/types.rs`; the variants and their id payloads are fixed by
their construction sites in `service_manager.rs`. -/
inductive StartupError
| ServiceNotManaged (id : String)
| BackgroundTaskAlreadyRunning (id : String)
| ServiceNotStopped (id : String)
| FailedToStartService (id : String)
deriving DecidableEq

/-- Overall system health. Modelled from the spec: declared in the missing
`src/service/types.rs`. -/
inductive OverallStatus
| Healthy
| Unhealthy
deriving DecidableEq

/-- A registered service: its immutable info (`id`, `name`, `priority`), the
current content of its shared status cell, and whether `task()` returns a
background unit of work. -/
structure ServiceEntry where
  id : String
  name : String
  priority : Priority
  status : Status
  hasTask : Bool
deriving DecidableEq

/-- The `ServiceManager`: the ordered registry and the map of live
background-task handles (modelled by the set of ids holding one). -/
structure ManagerState where
  services : List ServiceEntry
  backgroundTasks : List String
deriving DecidableEq

/-- Observable outcome of awaiting the start or stop routine of a service under the
10-second `timeout`: completed `Ok`, completed `Err`, or timed out. -/
inductive RoutineOutcome
| ok
| error (err : BoxedError)
| timeout
deriving DecidableEq

/-- The hardcoded `Duration::from_secs(10)` used by both `boot_service` and
`stop_service`. -/
def startStopTimeoutSecs : Nat := 10

/-- Source `ServiceManagerBuilder::with_service`: scan the registered services for an
entry with the same id; if found, ignore the addition (warning logged),
otherwise push the service. -/
def with_service (services : List ServiceEntry) (svc : ServiceEntry) :
    List ServiceEntry :=
  if services.any (fun s => s.id == svc.id) then services
  else services ++ [svc]

/-- Source `ServiceManagerBuilder::build`: seal the accumulated registry; no background
task handle exists yet. -/
def build (services : List ServiceEntry) : ManagerState :=
  { services := services, backgroundTasks := [] }

/-- Source `ServiceManager::manages_service`: linear scan of the registry by id. -/
def manages_service (m : ManagerState) (id : String) : Bool :=
  m.services.any (fun s => s.id == id)

/-- Read the status cell of a service through the registry (the cell shared
between the manager and the background task of the service). -/
def getStatus (m : ManagerState) (id : String) : Option Status :=
  (m.services.find? (fun s => s.id == id)).map (fun s => s.status)

/-- Source `ServiceInfo::set_status`: write the status cell of the service with the
given id. -/
def setStatus (m : ManagerState) (id : String) (st : Status) : ManagerState :=
  { m with
    services := m.services.map (fun s =>
      if s.id == id then { s with status := st } else s) }

/-- Source `ServiceManager::start_service`: the three rejection checks in source order
(`check_is_service_managed`, `check_no_known_background_task`,
`check_is_service_stopped`), then status `Starting`, then `boot_service` under
the 10-second timeout, then — on success — spawn of the watchdog-wrapped
background task and insertion of its handle. -/
def start_service (m : ManagerState) (svc : ServiceEntry)
    (outcome : RoutineOutcome) : Except StartupError Unit × ManagerState :=
  if ¬ manages_service m svc.id then
    (Except.error (StartupError.ServiceNotManaged svc.id), m)
  else if m.backgroundTasks.contains svc.id then
    (Except.error (StartupError.BackgroundTaskAlreadyRunning svc.id), m)
  else if getStatus m svc.id ≠ some Status.Stopped then
    (Except.error (StartupError.ServiceNotStopped svc.id), m)
  else
    let m1 := setStatus m svc.id Status.Starting
    match outcome with
    | RoutineOutcome.ok =>
      let m2 := setStatus m1 svc.id Status.Started
      let m3 :=
        if svc.hasTask then
          { m2 with backgroundTasks := m2.backgroundTasks ++ [svc.id] }
        else m2
      (Except.ok (), m3)
    | RoutineOutcome.error e =>
      (Except.error (StartupError.FailedToStartService svc.id),
        setStatus m1 svc.id (Status.FailedToStart e))
    | RoutineOutcome.timeout =>
      (Except.error (StartupError.FailedToStartService svc.id),
        setStatus m1 svc.id (Status.FailedToStart elapsedErr))

/-- Source `ServiceManager::stop_service`: no-op (log only) if unmanaged or status is
not `Started`; otherwise status `Stopping`, then the stop routine under the
10-second timeout, then `Stopped` / `FailedToStop(cause)`. Returns `()` in the
source — no error value — so the model returns only the new state. -/
def stop_service (m : ManagerState) (svc : ServiceEntry)
    (outcome : RoutineOutcome) : ManagerState :=
  if ¬ manages_service m svc.id then m
  else if getStatus m svc.id ≠ some Status.Started then m
  else
    let m1 := setStatus m svc.id Status.Stopping
    match outcome with
    | RoutineOutcome.ok => setStatus m1 svc.id Status.Stopped
    | RoutineOutcome.error e => setStatus m1 svc.id (Status.FailedToStop e)
    | RoutineOutcome.timeout => setStatus m1 svc.id (Status.FailedToStop elapsedErr)

/-- The watchdog completion hook appended in `start_service` (lines 119-157):
when the background unit of work ends, with either result, the status of the service
is set to `RuntimeError(...)`. The invocation of the hook on task completion is
modelled from the spec (`Watchdog` in §4.5 lives outside `src/`); the hook body
itself is verbatim from `service_manager.rs`. -/
def onBackgroundTaskEnd (m : ManagerState) (id : String)
    (result : Except BoxedError Unit) : ManagerState :=
  match result with
  | Except.ok () =>
    setStatus m id (Status.RuntimeError "Background task ended unexpectedly!")
  | Except.error e =>
    setStatus m id
      (Status.RuntimeError ("Background task ended with error: " ++ e))

/-- Source `ServiceManager::overall_status`: return `Unhealthy` at the first service
whose status is not `Started`, else `Healthy`. -/
def overallStatusGo : List ServiceEntry → OverallStatus
| [] => OverallStatus.Healthy
| s :: rest =>
  if s.status ≠ Status.Started then OverallStatus.Unhealthy
  else overallStatusGo rest

/-- Source `ServiceManager::overall_status` over the manager state. -/
def overall_status (m : ManagerState) : OverallStatus :=
  overallStatusGo m.services

/-- Modelled from the spec: the `Display` rendering of `Status` lives in the
missing `src/service/types.rs`; `status_tree` only interpolates it, so the
claims depend on its existence, not its exact text. -/
def statusDisplay : Status → String
| Status.Stopped => "Stopped"
| Status.Starting => "Starting"
| Status.Started => "Started"
| Status.Stopping => "Stopping"
| Status.FailedToStart e => "FailedToStart(" ++ e ++ ")"
| Status.FailedToStop e => "FailedToStop(" ++ e ++ ")"
| Status.RuntimeError e => "RuntimeError(" ++ e ++ ")"

/-- One ` - name: status` line of `status_tree`. -/
def serviceLine (s : ServiceEntry) : String :=
  " - " ++ s.name ++ ": " ++ statusDisplay s.status ++ "\n"

/-- The five string accumulators of `status_tree`. -/
structure Buckets where
  failedEssentials : String
  failedOptionals : String
  nonFailedEssentials : String
  nonFailedOptionals : String
  others : String

/-- The body of the `status_tree` loop: push the line of the service onto the bucket
selected by the `match` on status and priority. -/
def bucketsStep (b : Buckets) (s : ServiceEntry) : Buckets :=
  match s.status with
  | Status.Started | Status.Stopped =>
    match s.priority with
    | Priority.Essential =>
      { b with nonFailedEssentials := b.nonFailedEssentials ++ serviceLine s }
    | Priority.Optional =>
      { b with nonFailedOptionals := b.nonFailedOptionals ++ serviceLine s }
  | Status.FailedToStart _ | Status.FailedToStop _ | Status.RuntimeError _ =>
    match s.priority with
    | Priority.Essential =>
      { b with failedEssentials := b.failedEssentials ++ serviceLine s }
    | Priority.Optional =>
      { b with failedOptionals := b.failedOptionals ++ serviceLine s }
  | _ => { b with others := b.others ++ serviceLine s }

/-- One `if !bucket.is_empty()` block of `status_tree`: header line plus the
accumulated lines of the bucket, or nothing when the bucket is empty. -/
def renderSection (header : String) (content : String) : String :=
  if content = "" then "" else "- " ++ header ++ ":\n" ++ content

/-- Source `ServiceManager::status_tree`: accumulate the five buckets over the registry
in order, then emit the non-empty ones with their headers, in the fixed order
of the source. -/
def status_tree (m : ManagerState) : String :=
  let b := m.services.foldl bucketsStep ⟨"", "", "", "", ""⟩
  renderSection "Failed essential services" b.failedEssentials
    ++ renderSection "Failed optional services" b.failedOptionals
    ++ renderSection "Essential services" b.nonFailedEssentials
    ++ renderSection "Optional services" b.nonFailedOptionals
    ++ renderSection "Other services" b.others

/-- The failed bucket predicate of the spec: `FailedToStart`, `FailedToStop` or
`RuntimeError`. -/
def isFailed : Status → Bool
| Status.FailedToStart _ => true
| Status.FailedToStop _ => true
| Status.RuntimeError _ => true
| _ => false

/-- The non-failed bucket predicate of the spec: `Started` or `Stopped`. -/
def isNonFailed : Status → Bool
| Status.Started => true
| Status.Stopped => true
| _ => false

/-- Concatenation of a list of rendered lines. -/
def concatLines : List String → String
| [] => ""
| x :: xs => x ++ concatLines xs

/-- The lines of one spec-side bucket: the services satisfying the bucket
predicate, in registration order, one `serviceLine` each. -/
def bucketLines (p : ServiceEntry → Bool) (m : ManagerState) : String :=
  concatLines ((m.services.filter p).map serviceLine)

/-- Rendering of `status_tree` as the spec sentence describes it: five buckets in fixed
order, each non-empty bucket a header followed by its member lines, empty
buckets omitted. Stated from the words of the spec, to be compared with
`status_tree` (refinement). -/
def status_tree_spec (m : ManagerState) : String :=
  renderSection "Failed essential services"
      (bucketLines (fun s => isFailed s.status && s.priority == Priority.Essential) m)
    ++ renderSection "Failed optional services"
      (bucketLines (fun s => isFailed s.status && s.priority == Priority.Optional) m)
    ++ renderSection "Essential services"
      (bucketLines (fun s => isNonFailed s.status && s.priority == Priority.Essential) m)
    ++ renderSection "Optional services"
      (bucketLines (fun s => isNonFailed s.status && s.priority == Priority.Optional) m)
    ++ renderSection "Other services"
      (bucketLines (fun s => !isFailed s.status && !isNonFailed s.status) m)

/-! ## Event broadcaster (`src/event.rs`) -/

/-- A subscriber of an `Event<T>`: a bounded-queue sender (whose receiving end
may have been dropped — `closed`) or an inline callback. -/
inductive Subscriber (τ : Type)
| channel (closed : Bool)
| closure (handler : τ → Except BoxedError Unit)

/-- Source `EventError<T>`: `ChannelSend(SendError<Arc<T>>)` (the failed send returns
the payload) or `Closure(BoxedError)`. -/
inductive EventError (τ : Type)
| ChannelSend (data : τ)
| Closure (err : BoxedError)

/-- Source `Event<T>`: name, subscriber list (behind a mutex held for the whole
dispatch), and the eviction flag `remove_subscriber_on_error`. -/
structure Event (τ : Type) where
  name : String
  subscribers : List (Subscriber τ)
  remove_subscriber_on_error : Bool

/-- Source `Event::new`. -/
def Event.new (τ : Type) (name : String) (remove_subscriber_on_error : Bool) :
    Event τ :=
  { name := name, subscribers := [], remove_subscriber_on_error }

/-- Source `impl Default for Event<T>`: `Self::new("Unnamed Event", false)`. -/
def Event.default (τ : Type) : Event τ :=
  Event.new τ "Unnamed Event" false

/-- Source `Event::subscriber_count`. -/
def Event.subscriber_count (e : Event τ) : Nat :=
  e.subscribers.length

/-- Source `Event::open_channel`: push a fresh (open) channel sender. The model keeps
only the sender side; the returned receiver is external. -/
def Event.open_channel (e : Event τ) : Event τ :=
  { e with subscribers := e.subscribers ++ [Subscriber.channel false] }

/-- Source `Event::subscribe`: push a closure subscriber. -/
def Event.subscribe (e : Event τ) (handler : τ → Except BoxedError Unit) :
    Event τ :=
  { e with subscribers := e.subscribers ++ [Subscriber.closure handler] }

/-- One delivery attempt of the dispatch loop body: `none` on success, the
recorded `EventError` on failure. A channel send fails exactly when the
receiving end is unreachable (`SendError` returns the payload); a closure fails
when the callback returns an error. -/
def deliver (data : τ) : Subscriber τ → Option (EventError τ)
| Subscriber.channel closed =>
  if closed then some (EventError.ChannelSend data) else none
| Subscriber.closure handler =>
  match handler data with
  | Except.ok () => none
  | Except.error e => some (EventError.Closure e)

/-- The dispatch loop: every subscriber is attempted in registration order,
index by index, and the outcome of each attempt is recorded. -/
def attemptTrace (data : τ) : List (Subscriber τ) → Nat →
    List (Nat × Option (EventError τ))
| [], _ => []
| sub :: rest, i => (i, deliver data sub) :: attemptTrace data rest (i + 1)

/-- The eviction loop: `for index in subscribers_to_remove.into_iter().rev()
{ subscribers.remove(index); }` — indices were collected in ascending order, so
removal runs in descending order. -/
def removeDescending (subs : List (Subscriber τ)) (idxs : List Nat) :
    List (Subscriber τ) :=
  idxs.reverse.foldl (fun l i => l.eraseIdx i) subs

/-- Source `Event::dispatch`: one pass over the subscribers collecting `errors` and
`subscribers_to_remove` in ascending index order, then the eviction loop if
`remove_subscriber_on_error`, then `Ok(())` iff `errors` is empty. -/
def Event.dispatch (e : Event τ) (data : τ) :
    Except (List (EventError τ)) Unit × Event τ :=
  let trace := attemptTrace data e.subscribers 0
  let errors := trace.filterMap (fun p => p.2)
  let toRemove := (trace.filter (fun p => p.2.isSome)).map (fun p => p.1)
  let subs :=
    if e.remove_subscriber_on_error then removeDescending e.subscribers toRemove
    else e.subscribers
  (if errors.isEmpty then Except.ok () else Except.error errors,
    { e with subscribers := subs })

instance {α β : Type} [DecidableEq α] [DecidableEq β] :
    DecidableEq (Except α β) := fun a b =>
  match a, b with
  | Except.ok x, Except.ok y =>
    if h : x = y then isTrue (by rw [h])
    else isFalse (by intro hc; cases hc; exact h rfl)
  | Except.error x, Except.error y =>
    if h : x = y then isTrue (by rw [h])
    else isFalse (by intro hc; cases hc; exact h rfl)
  | Except.ok _, Except.error _ => isFalse (by intro hc; cases hc)
  | Except.error _, Except.ok _ => isFalse (by intro hc; cases hc)

/-! ## Concrete scenario used by the counterexamples: one essential service
with a background task, started successfully. -/

/-- A concrete service with a background unit of work. -/
def svcA : ServiceEntry :=
  ⟨"a", "A", Priority.Essential, Status.Stopped, true⟩

/-- The manager after registering `svcA` and starting it successfully: status
`Started`, background-task handle tracked. -/
def mgrStarted : ManagerState :=
  (start_service (build (with_service [] svcA)) svcA RoutineOutcome.ok).2

/-- State of `mgrStarted` after a successful `stop_service`: status `Stopped`, but the
background-task handle is still tracked (no removal path exists). -/
def mgrRestopped : ManagerState :=
  stop_service mgrStarted svcA RoutineOutcome.ok

/-- State of `mgrStarted` after its background task ended (with `Ok`): the watchdog hook
has set the status to `RuntimeError(...)`; the handle is still tracked. -/
def mgrCrashed : ManagerState :=
  onBackgroundTaskEnd mgrStarted "a" (Except.ok ())

/-! ## Basic lemmas about the manager state -/

theorem setStatus_id_eq (s : ServiceEntry) (id : String) (st : Status) :
    (if s.id == id then { s with status := st } else s).id = s.id := by
  split <;> rfl

theorem manages_setStatus (m : ManagerState) (id id2 : String) (st : Status) :
    manages_service (setStatus m id st) id2 = manages_service m id2 := by
  simp only [manages_service, setStatus, List.any_map]
  have hf : ((fun s : ServiceEntry => s.id == id2) ∘
      fun s => if s.id == id then { s with status := st } else s)
      = fun s : ServiceEntry => s.id == id2 := by
    funext s
    by_cases h : s.id == id <;> simp [Function.comp, h]
  rw [hf]

theorem backgroundTasks_setStatus (m : ManagerState) (id : String) (st : Status) :
    (setStatus m id st).backgroundTasks = m.backgroundTasks := rfl

theorem find?_setStatus (l : List ServiceEntry) (id : String) (st : Status) :
    (l.map (fun s => if s.id == id then { s with status := st } else s)).find?
        (fun s => s.id == id)
      = (l.find? (fun s => s.id == id)).map
        (fun s => { s with status := st }) := by
  induction l with
  | nil => rfl
  | cons s rest ih =>
    simp only [List.map_cons, List.find?_cons]
    by_cases h : (s.id == id) = true
    · rw [if_pos h]
      simp [h]
    · rw [if_neg h]
      have h2 : (s.id == id) = false := by simpa using h
      simp only [h2]
      exact ih

theorem getStatus_setStatus_self (m : ManagerState) (id : String) (st : Status) :
    getStatus (setStatus m id st) id = (getStatus m id).map (fun _ => st) := by
  simp only [getStatus, setStatus, find?_setStatus]
  cases m.services.find? (fun s => s.id == id) <;> rfl

theorem setStatus_setStatus (m : ManagerState) (id : String) (st1 st2 : Status) :
    setStatus (setStatus m id st1) id st2 = setStatus m id st2 := by
  simp only [setStatus, List.map_map]
  have hf : ((fun s : ServiceEntry => if s.id == id then { s with status := st2 } else s) ∘
      fun s => if s.id == id then { s with status := st1 } else s)
      = fun s : ServiceEntry => if s.id == id then { s with status := st2 } else s := by
    funext s
    by_cases h : s.id == id <;> simp [Function.comp, h]
  rw [hf]

/-! ## Claim theorems -/

/-- C2: `start_service` rejects, in source order and with the state left
untouched: an unmanaged id yields `ServiceNotManaged`; a tracked background
task handle yields `BackgroundTaskAlreadyRunning`; a status other than
`Stopped` yields `ServiceNotStopped`. -/
theorem start_service_rejections (m : ManagerState) (svc : ServiceEntry)
    (o : RoutineOutcome) :
    (manages_service m svc.id = false →
      start_service m svc o
        = (Except.error (StartupError.ServiceNotManaged svc.id), m))
    ∧ (manages_service m svc.id = true →
        m.backgroundTasks.contains svc.id = true →
      start_service m svc o
        = (Except.error (StartupError.BackgroundTaskAlreadyRunning svc.id), m))
    ∧ (manages_service m svc.id = true →
        m.backgroundTasks.contains svc.id = false →
        getStatus m svc.id ≠ some Status.Stopped →
      start_service m svc o
        = (Except.error (StartupError.ServiceNotStopped svc.id), m)) := by
  refine ⟨fun h1 => ?_, fun h1 h2 => ?_, fun h1 h2 h3 => ?_⟩
  · simp [start_service, h1]
  · have h2m : svc.id ∈ m.backgroundTasks := by simpa using h2
    simp [start_service, h1, h2m]
  · have h2m : svc.id ∉ m.backgroundTasks := by simpa using h2
    simp [start_service, h1, h2m, h3]

/-- Witness for C2: each rejection, observed on a concrete one-service
manager. -/
theorem start_service_rejections_witness :
    (start_service (build []) ⟨"a", "A", Priority.Essential, Status.Stopped, false⟩
        RoutineOutcome.ok
      = (Except.error (StartupError.ServiceNotManaged "a"), build []))
    ∧ (start_service ⟨[⟨"a", "A", Priority.Essential, Status.Stopped, false⟩], ["a"]⟩
        ⟨"a", "A", Priority.Essential, Status.Stopped, false⟩ RoutineOutcome.ok
      = (Except.error (StartupError.BackgroundTaskAlreadyRunning "a"),
          ⟨[⟨"a", "A", Priority.Essential, Status.Stopped, false⟩], ["a"]⟩))
    ∧ (start_service (build [⟨"a", "A", Priority.Essential, Status.Started, false⟩])
        ⟨"a", "A", Priority.Essential, Status.Started, false⟩ RoutineOutcome.ok
      = (Except.error (StartupError.ServiceNotStopped "a"),
          build [⟨"a", "A", Priority.Essential, Status.Started, false⟩])) :=
  ⟨(start_service_rejections _ _ _).1 (by decide),
   (start_service_rejections _ _ _).2.1 (by decide) (by decide),
   (start_service_rejections _ _ _).2.2 (by decide) (by decide) (by decide)⟩

/-- C5: `with_service` on a duplicate id is ignored and the existing service
kept; registering two services with the same id leaves exactly the first in the
registry, and `manages_service` holds for that id. -/
theorem with_service_duplicate_ignored :
    (∀ (b : List ServiceEntry) (s : ServiceEntry),
      b.any (fun x => x.id == s.id) = true → with_service b s = b)
    ∧ ∀ s1 s2 : ServiceEntry, s1.id = s2.id →
      with_service (with_service [] s1) s2 = [s1]
      ∧ manages_service (build (with_service (with_service [] s1) s2)) s1.id
          = true := by
  refine ⟨fun b s h => by simp [with_service, h], fun s1 s2 h => ?_⟩
  have h1 : with_service [] s1 = [s1] := by simp [with_service]
  have h2 : with_service [s1] s2 = [s1] := by simp [with_service, h]
  refine ⟨by rw [h1, h2], ?_⟩
  rw [h1, h2]
  simp [manages_service, build]

/-- Witness for C5: two concrete services sharing the id `"a"`. -/
theorem with_service_duplicate_ignored_witness :
    with_service (with_service [] ⟨"a", "A", Priority.Essential, Status.Stopped, false⟩)
        ⟨"a", "B", Priority.Optional, Status.Started, true⟩
      = [⟨"a", "A", Priority.Essential, Status.Stopped, false⟩]
    ∧ manages_service
        (build (with_service
          (with_service [] ⟨"a", "A", Priority.Essential, Status.Stopped, false⟩)
          ⟨"a", "B", Priority.Optional, Status.Started, true⟩)) "a" = true :=
  with_service_duplicate_ignored.2
    ⟨"a", "A", Priority.Essential, Status.Stopped, false⟩
    ⟨"a", "B", Priority.Optional, Status.Started, true⟩ rfl

/-- The `overall_status` loop returns `Healthy` exactly when every service in
the list is `Started`. -/
theorem overallStatusGo_healthy_iff (l : List ServiceEntry) :
    overallStatusGo l = OverallStatus.Healthy
      ↔ ∀ s ∈ l, s.status = Status.Started := by
  induction l with
  | nil => simp [overallStatusGo]
  | cons s rest ih =>
    by_cases h : s.status = Status.Started
    · simp [overallStatusGo, h, ih]
    · simp [overallStatusGo, h]

/-- C6: `overall_status` is `Healthy` iff the status of every registered service is
exactly `Started`; any registered service in any other status makes it
`Unhealthy`. -/
theorem overall_status_healthy_iff (m : ManagerState) :
    (overall_status m = OverallStatus.Healthy
      ↔ ∀ s ∈ m.services, s.status = Status.Started)
    ∧ ∀ s ∈ m.services, s.status ≠ Status.Started →
      overall_status m = OverallStatus.Unhealthy := by
  have h := overallStatusGo_healthy_iff m.services
  refine ⟨h, fun s hs hne => ?_⟩
  cases hcase : overall_status m with
  | Healthy => exact absurd (h.mp hcase s hs) hne
  | Unhealthy => rfl

/-- Witness for C6: a two-service manager with one `Stopped` service is
`Unhealthy`. -/
theorem overall_status_healthy_iff_witness :
    overall_status (build [⟨"a", "A", Priority.Essential, Status.Started, false⟩,
        ⟨"b", "B", Priority.Optional, Status.Stopped, false⟩])
      = OverallStatus.Unhealthy :=
  (overall_status_healthy_iff _).2
    ⟨"b", "B", Priority.Optional, Status.Stopped, false⟩ (by decide) (by decide)

/-- C3 (amended): for a managed service in status `Stopped` with no tracked
background-task handle, `start_service` runs the start routine under the
10-second timeout; on success the status becomes `Started`, on failure or
timeout the status becomes `FailedToStart(cause)` — the timeout boxed as the
cause, same error kind — and `start_service` returns `FailedToStartService`. -/
theorem start_service_boot_transitions (m : ManagerState) (svc : ServiceEntry)
    (hm : manages_service m svc.id = true)
    (hb : m.backgroundTasks.contains svc.id = false)
    (hs : getStatus m svc.id = some Status.Stopped) :
    startStopTimeoutSecs = 10
    ∧ ((start_service m svc RoutineOutcome.ok).1 = Except.ok ()
        ∧ getStatus (start_service m svc RoutineOutcome.ok).2 svc.id
          = some Status.Started)
    ∧ (∀ e, (start_service m svc (RoutineOutcome.error e)).1
          = Except.error (StartupError.FailedToStartService svc.id)
        ∧ getStatus (start_service m svc (RoutineOutcome.error e)).2 svc.id
          = some (Status.FailedToStart e))
    ∧ ((start_service m svc RoutineOutcome.timeout).1
          = Except.error (StartupError.FailedToStartService svc.id)
        ∧ getStatus (start_service m svc RoutineOutcome.timeout).2 svc.id
          = some (Status.FailedToStart elapsedErr)) := by
  have hbm : svc.id ∉ m.backgroundTasks := by simpa using hb
  have hstep : ∀ st, getStatus (setStatus m svc.id st) svc.id = some st := by
    intro st
    rw [getStatus_setStatus_self, hs]
    rfl
  have hok : start_service m svc RoutineOutcome.ok
      = (Except.ok (),
          if svc.hasTask = true then
            { setStatus m svc.id Status.Started with
                backgroundTasks := m.backgroundTasks ++ [svc.id] }
          else setStatus m svc.id Status.Started) := by
    simp [start_service, hm, hbm, hs, setStatus_setStatus,
      backgroundTasks_setStatus]
  have herr : ∀ e, start_service m svc (RoutineOutcome.error e)
      = (Except.error (StartupError.FailedToStartService svc.id),
          setStatus m svc.id (Status.FailedToStart e)) := by
    intro e
    simp [start_service, hm, hbm, hs, setStatus_setStatus]
  have htmo : start_service m svc RoutineOutcome.timeout
      = (Except.error (StartupError.FailedToStartService svc.id),
          setStatus m svc.id (Status.FailedToStart elapsedErr)) := by
    simp [start_service, hm, hbm, hs, setStatus_setStatus]
  refine ⟨rfl, ⟨by rw [hok], ?_⟩, fun e => ⟨by rw [herr], ?_⟩,
    by rw [htmo], ?_⟩
  · rw [hok]
    by_cases ht : svc.hasTask = true
    · rw [if_pos ht]
      exact hstep Status.Started
    · rw [if_neg ht]
      exact hstep Status.Started
  · rw [herr]
    exact hstep (Status.FailedToStart e)
  · rw [htmo]
    exact hstep (Status.FailedToStart elapsedErr)

/-- Witness for C3: the three boot outcomes on a concrete one-service
manager. -/
theorem start_service_boot_transitions_witness :
    ((start_service (build [⟨"a", "A", Priority.Essential, Status.Stopped, false⟩])
        ⟨"a", "A", Priority.Essential, Status.Stopped, false⟩ RoutineOutcome.ok).1
      = Except.ok ()
    ∧ getStatus (start_service (build [⟨"a", "A", Priority.Essential, Status.Stopped, false⟩])
        ⟨"a", "A", Priority.Essential, Status.Stopped, false⟩ RoutineOutcome.ok).2 "a"
      = some Status.Started)
    ∧ ((start_service (build [⟨"a", "A", Priority.Essential, Status.Stopped, false⟩])
        ⟨"a", "A", Priority.Essential, Status.Stopped, false⟩ RoutineOutcome.timeout).1
      = Except.error (StartupError.FailedToStartService "a")
    ∧ getStatus (start_service (build [⟨"a", "A", Priority.Essential, Status.Stopped, false⟩])
        ⟨"a", "A", Priority.Essential, Status.Stopped, false⟩ RoutineOutcome.timeout).2 "a"
      = some (Status.FailedToStart elapsedErr)) :=
  ⟨(start_service_boot_transitions _ _ (by decide) (by decide) (by decide)).2.1,
   (start_service_boot_transitions _ _ (by decide) (by decide) (by decide)).2.2.2⟩

/-- C3 counterexample: a managed service in status `Stopped` whose id still has
a tracked background-task handle (reached by a successful start with a
background task followed by a successful stop) is rejected with
`BackgroundTaskAlreadyRunning`: its status does not become `Starting`,
`Started` or `FailedToStart`. -/
theorem start_service_stopped_counterexample :
    manages_service mgrRestopped "a" = true
    ∧ getStatus mgrRestopped "a" = some Status.Stopped
    ∧ (start_service mgrRestopped svcA RoutineOutcome.ok).1
        = Except.error (StartupError.BackgroundTaskAlreadyRunning "a")
    ∧ (start_service mgrRestopped svcA RoutineOutcome.ok).1 ≠ Except.ok ()
    ∧ getStatus (start_service mgrRestopped svcA RoutineOutcome.ok).2 "a"
        ≠ some Status.Starting
    ∧ getStatus (start_service mgrRestopped svcA RoutineOutcome.ok).2 "a"
        ≠ some Status.Started := by
  decide

/-- C4: `stop_service` returns no error value (its model returns only the new
state); unmanaged or not-`Started` services are left untouched; a `Started`
service transitions to `Stopped` on success and to `FailedToStop(cause)` on
failure or timeout, under the 10-second timeout. -/
theorem stop_service_spec (m : ManagerState) (svc : ServiceEntry) :
    startStopTimeoutSecs = 10
    ∧ (∀ o, manages_service m svc.id = false → stop_service m svc o = m)
    ∧ (∀ o, getStatus m svc.id ≠ some Status.Started → stop_service m svc o = m)
    ∧ (manages_service m svc.id = true →
        getStatus m svc.id = some Status.Started →
        stop_service m svc RoutineOutcome.ok = setStatus m svc.id Status.Stopped
        ∧ (∀ e, stop_service m svc (RoutineOutcome.error e)
            = setStatus m svc.id (Status.FailedToStop e))
        ∧ stop_service m svc RoutineOutcome.timeout
            = setStatus m svc.id (Status.FailedToStop elapsedErr)) := by
  refine ⟨rfl, fun o h => by simp [stop_service, h], fun o h => ?_, fun hm hs => ?_⟩
  · simp only [stop_service, h]
    split <;> simp
  · refine ⟨?_, fun e => ?_, ?_⟩ <;>
      simp [stop_service, hm, hs, setStatus_setStatus]

/-- Witness for C4: the no-op and the three stop outcomes on concrete
managers. -/
theorem stop_service_spec_witness :
    stop_service (build [⟨"a", "A", Priority.Essential, Status.Stopped, false⟩])
        ⟨"a", "A", Priority.Essential, Status.Stopped, false⟩ RoutineOutcome.ok
      = build [⟨"a", "A", Priority.Essential, Status.Stopped, false⟩]
    ∧ stop_service (build [⟨"a", "A", Priority.Essential, Status.Started, false⟩])
        ⟨"a", "A", Priority.Essential, Status.Started, false⟩ RoutineOutcome.timeout
      = setStatus (build [⟨"a", "A", Priority.Essential, Status.Started, false⟩]) "a"
          (Status.FailedToStop elapsedErr) :=
  ⟨(stop_service_spec _ _).2.2.1 RoutineOutcome.ok (by decide),
   ((stop_service_spec _ _).2.2.2 (by decide) (by decide)).2.2⟩

/-- C1 (amended): a successful start of a managed, stopped service with a
background unit of work yields status `Started` and a tracked handle; when the
unit of work later ends (with success or error) the watchdog hook sets the
status to `RuntimeError(...)`, and a subsequent `start_service` on the same
service returns `BackgroundTaskAlreadyRunning` — the handle is never removed,
and that check precedes the status check. -/
theorem background_task_lifecycle (m : ManagerState) (svc : ServiceEntry)
    (hm : manages_service m svc.id = true)
    (hb : m.backgroundTasks.contains svc.id = false)
    (hs : getStatus m svc.id = some Status.Stopped)
    (ht : svc.hasTask = true) :
    (start_service m svc RoutineOutcome.ok).1 = Except.ok ()
    ∧ (start_service m svc RoutineOutcome.ok).2.backgroundTasks.contains svc.id
        = true
    ∧ getStatus (start_service m svc RoutineOutcome.ok).2 svc.id
        = some Status.Started
    ∧ ∀ res : Except BoxedError Unit,
        (∃ e, getStatus
            (onBackgroundTaskEnd (start_service m svc RoutineOutcome.ok).2 svc.id res)
            svc.id
          = some (Status.RuntimeError e))
        ∧ ∀ o, (start_service
            (onBackgroundTaskEnd (start_service m svc RoutineOutcome.ok).2 svc.id res)
            svc o).1
          = Except.error (StartupError.BackgroundTaskAlreadyRunning svc.id) := by
  have hbm : svc.id ∉ m.backgroundTasks := by simpa using hb
  have hok : start_service m svc RoutineOutcome.ok
      = (Except.ok (),
          { setStatus m svc.id Status.Started with
              backgroundTasks := m.backgroundTasks ++ [svc.id] }) := by
    simp [start_service, hm, hbm, hs, ht, setStatus_setStatus,
      backgroundTasks_setStatus]
  rw [hok]
  have hmanages2 : ∀ st : Status,
      manages_service
        (setStatus { setStatus m svc.id Status.Started with
            backgroundTasks := m.backgroundTasks ++ [svc.id] } svc.id st)
        svc.id = true := by
    intro st
    rw [manages_setStatus]
    show manages_service (setStatus m svc.id Status.Started) svc.id = true
    rw [manages_setStatus]
    exact hm
  have hmem2 : ∀ st : Status,
      (setStatus { setStatus m svc.id Status.Started with
          backgroundTasks := m.backgroundTasks ++ [svc.id] } svc.id st
        ).backgroundTasks.contains svc.id = true := by
    intro st
    rw [backgroundTasks_setStatus]
    simp
  have hgs : getStatus
      { setStatus m svc.id Status.Started with
          backgroundTasks := m.backgroundTasks ++ [svc.id] } svc.id
      = some Status.Started := by
    show getStatus (setStatus m svc.id Status.Started) svc.id = some Status.Started
    rw [getStatus_setStatus_self, hs]
    rfl
  refine ⟨rfl, by simp, hgs, fun res => ⟨?_, fun o => ?_⟩⟩
  · cases res with
    | ok u =>
      cases u
      refine ⟨"Background task ended unexpectedly!", ?_⟩
      show getStatus (setStatus _ svc.id _) svc.id = _
      rw [getStatus_setStatus_self, hgs]
      rfl
    | error e =>
      refine ⟨"Background task ended with error: " ++ e, ?_⟩
      show getStatus (setStatus _ svc.id _) svc.id = _
      rw [getStatus_setStatus_self, hgs]
      rfl
  · cases res with
    | ok u =>
      cases u
      have h1 := hmanages2 (Status.RuntimeError "Background task ended unexpectedly!")
      have h2 := hmem2 (Status.RuntimeError "Background task ended unexpectedly!")
      have h2m : svc.id ∈ (setStatus { setStatus m svc.id Status.Started with
          backgroundTasks := m.backgroundTasks ++ [svc.id] } svc.id
          (Status.RuntimeError "Background task ended unexpectedly!")).backgroundTasks := by
        simpa using h2
      simp [onBackgroundTaskEnd, start_service, h1, h2m]
    | error e =>
      have h1 := hmanages2
        (Status.RuntimeError ("Background task ended with error: " ++ e))
      have h2 := hmem2
        (Status.RuntimeError ("Background task ended with error: " ++ e))
      have h2m : svc.id ∈ (setStatus { setStatus m svc.id Status.Started with
          backgroundTasks := m.backgroundTasks ++ [svc.id] } svc.id
          (Status.RuntimeError ("Background task ended with error: " ++ e))).backgroundTasks := by
        simpa using h2
      simp [onBackgroundTaskEnd, start_service, h1, h2m]

/-- Witness for C1 (amended): the concrete crash scenario — after the
background task of `svcA` ends, a new `start_service` returns
`BackgroundTaskAlreadyRunning`. -/
theorem background_task_lifecycle_witness :
    (start_service mgrCrashed svcA RoutineOutcome.ok).1
      = Except.error (StartupError.BackgroundTaskAlreadyRunning "a") :=
  ((background_task_lifecycle (build (with_service [] svcA)) svcA
      (by decide) (by decide) (by decide) (by decide)).2.2.2
    (Except.ok ())).2 RoutineOutcome.ok

/-- C1 counterexample: in the same concrete scenario the claimed error is
`ServiceNotStopped`, but the code returns `BackgroundTaskAlreadyRunning`: the
handle of the ended background task is still tracked and that check runs
first. -/
theorem background_task_restart_counterexample :
    getStatus mgrCrashed "a"
        = some (Status.RuntimeError "Background task ended unexpectedly!")
    ∧ (start_service mgrCrashed svcA RoutineOutcome.ok).1
        = Except.error (StartupError.BackgroundTaskAlreadyRunning "a")
    ∧ (start_service mgrCrashed svcA RoutineOutcome.ok).1
        ≠ Except.error (StartupError.ServiceNotStopped "a") := by
  decide

/-! ## Lemmas about event dispatch -/

theorem attemptTrace_map_fst {τ : Type} (data : τ) (subs : List (Subscriber τ)) :
    ∀ i, (attemptTrace data subs i).map (fun p => p.1)
      = List.range' i subs.length := by
  induction subs with
  | nil => intro i; rfl
  | cons s rest ih =>
    intro i
    simp [attemptTrace, List.range'_succ, ih]

theorem attemptTrace_filterMap_snd {τ : Type} (data : τ)
    (subs : List (Subscriber τ)) :
    ∀ i, (attemptTrace data subs i).filterMap (fun p => p.2)
      = subs.filterMap (deliver data) := by
  induction subs with
  | nil => intro i; rfl
  | cons s rest ih =>
    intro i
    simp only [attemptTrace, List.filterMap_cons]
    cases h : deliver data s <;> simp [h, ih]

theorem attemptTrace_failIdx_shift {τ : Type} (data : τ)
    (subs : List (Subscriber τ)) :
    ∀ i, ((attemptTrace data subs (i + 1)).filter
          (fun p => p.2.isSome)).map (fun p => p.1)
      = (((attemptTrace data subs i).filter
          (fun p => p.2.isSome)).map (fun p => p.1)).map (fun n => n + 1) := by
  induction subs with
  | nil => intro i; rfl
  | cons s rest ih =>
    intro i
    simp only [attemptTrace, List.filter_cons]
    cases h : (deliver data s).isSome <;> simp [h, ih (i + 1)]

theorem foldl_eraseIdx_map_succ {α : Type} (idxs : List Nat) :
    ∀ (s : α) (rest : List α),
      List.foldl (fun l i => l.eraseIdx i) (s :: rest)
          (idxs.map (fun n => n + 1))
        = s :: List.foldl (fun l i => l.eraseIdx i) rest idxs := by
  induction idxs with
  | nil => intro s rest; rfl
  | cons i idxs ih =>
    intro s rest
    simp only [List.map_cons, List.foldl_cons, List.eraseIdx_cons_succ]
    exact ih s (rest.eraseIdx i)

/-- Applying the eviction loop (descending removal) to the ascending list of
failing indices removes exactly the failing subscribers. -/
theorem removeDescending_filter {τ : Type} (data : τ) :
    ∀ subs : List (Subscriber τ),
      removeDescending subs
        (((attemptTrace data subs 0).filter
          (fun p => p.2.isSome)).map (fun p => p.1))
      = subs.filter (fun s => (deliver data s).isNone) := by
  intro subs
  induction subs with
  | nil => rfl
  | cons s rest ih =>
    have hshift := attemptTrace_failIdx_shift data rest 0
    have hcons : attemptTrace data (s :: rest) 0
        = (0, deliver data s) :: attemptTrace data rest (0 + 1) := rfl
    cases hd : deliver data s with
    | none =>
      rw [hcons, hd, List.filter_cons_of_neg (by simp), hshift,
        show removeDescending (s :: rest)
            ((((attemptTrace data rest 0).filter
              (fun p => p.2.isSome)).map (fun p => p.1)).map (fun n => n + 1))
          = List.foldl (fun l i => l.eraseIdx i) (s :: rest)
            ((((attemptTrace data rest 0).filter
              (fun p => p.2.isSome)).map (fun p => p.1)).map
                (fun n => n + 1)).reverse from rfl,
        ← List.map_reverse, foldl_eraseIdx_map_succ,
        show List.foldl (fun l i => l.eraseIdx i) rest
            ((((attemptTrace data rest 0).filter
              (fun p => p.2.isSome)).map (fun p => p.1)).reverse)
          = removeDescending rest
            (((attemptTrace data rest 0).filter
              (fun p => p.2.isSome)).map (fun p => p.1)) from rfl,
        ih, List.filter_cons_of_pos (by simp [hd])]
    | some err =>
      rw [hcons, hd, List.filter_cons_of_pos (by simp), List.map_cons, hshift,
        show removeDescending (s :: rest)
            (0 :: (((attemptTrace data rest 0).filter
              (fun p => p.2.isSome)).map (fun p => p.1)).map (fun n => n + 1))
          = List.foldl (fun l i => l.eraseIdx i) (s :: rest)
            (0 :: (((attemptTrace data rest 0).filter
              (fun p => p.2.isSome)).map (fun p => p.1)).map
                (fun n => n + 1)).reverse from rfl,
        List.reverse_cons, List.foldl_append, ← List.map_reverse,
        foldl_eraseIdx_map_succ]
      simp only [List.foldl_cons, List.eraseIdx_cons_zero, List.foldl_nil]
      rw [show List.foldl (fun l i => l.eraseIdx i) rest
            ((((attemptTrace data rest 0).filter
              (fun p => p.2.isSome)).map (fun p => p.1)).reverse)
          = removeDescending rest
            (((attemptTrace data rest 0).filter
              (fun p => p.2.isSome)).map (fun p => p.1)) from rfl,
        ih, List.filter_cons_of_neg (by simp [hd])]

theorem length_filterMap_eq_filter {α β : Type} (f : α → Option β)
    (l : List α) :
    (l.filterMap f).length = (l.filter (fun a => (f a).isSome)).length := by
  induction l with
  | nil => rfl
  | cons a l ih =>
    cases h : f a <;> simp [List.filterMap_cons, List.filter_cons, h, ih]

theorem length_filter_isNone_add {α β : Type} (f : α → Option β) (l : List α) :
    (l.filter (fun a => (f a).isNone)).length
      + (l.filter (fun a => (f a).isSome)).length = l.length := by
  induction l with
  | nil => rfl
  | cons a l ih =>
    cases h : f a <;> simp [List.filter_cons, h] <;> omega

/-- A dispatch with no failing subscriber returns `Ok(())`. -/
theorem dispatch_ok_of_no_failures {τ : Type} (e : Event τ) (data : τ)
    (h : e.subscribers.filterMap (deliver data) = []) :
    (e.dispatch data).1 = Except.ok () := by
  simp [Event.dispatch, attemptTrace_filterMap_snd, h]

/-- C7: dispatch attempts delivery of the shared payload to every subscriber
in registration order (indices `0..n-1`, a failure never stops the pass),
returns `Ok` iff no delivery failed, and otherwise returns the full list of
per-subscriber failures in order — `ChannelSend` for an unreachable queue
subscriber, `Closure` for a failing callback, as fixed by `deliver`. -/
theorem dispatch_best_effort {τ : Type} (e : Event τ) (data : τ) :
    ((attemptTrace data e.subscribers 0).map (fun p => p.1)
        = List.range e.subscribers.length)
    ∧ ((e.dispatch data).1 = Except.ok ()
        ↔ ∀ s ∈ e.subscribers, deliver data s = none)
    ∧ (e.subscribers.filterMap (deliver data) ≠ [] →
        (e.dispatch data).1
          = Except.error (e.subscribers.filterMap (deliver data))) := by
  have herr : (attemptTrace data e.subscribers 0).filterMap (fun p => p.2)
      = e.subscribers.filterMap (deliver data) :=
    attemptTrace_filterMap_snd data e.subscribers 0
  refine ⟨?_, ?_, fun hNE => ?_⟩
  · rw [attemptTrace_map_fst]
    exact (List.range_eq_range' _).symm
  · by_cases hE : e.subscribers.filterMap (deliver data) = []
    · simp only [Event.dispatch, herr, hE]
      simpa using List.filterMap_eq_nil_iff.mp hE
    · simp only [Event.dispatch, herr]
      constructor
      · intro hok
        rw [if_neg (by simpa using hE)] at hok
        cases hok
      · intro hall
        exact absurd (List.filterMap_eq_nil_iff.mpr hall) hE
  · simp only [Event.dispatch, herr]
    rw [if_neg (by simpa using hNE)]

/-- Witness for C7: dispatch to a closed channel, a failing closure and an open
channel returns both failures, in order. -/
theorem dispatch_best_effort_witness :
    (({ name := "e2",
        subscribers := [Subscriber.channel true,
          Subscriber.closure (fun _ => Except.error "boom"),
          Subscriber.channel false],
        remove_subscriber_on_error := false } : Event Nat).dispatch 7).1
      = Except.error
        (([Subscriber.channel true,
          Subscriber.closure (fun _ => Except.error "boom"),
          Subscriber.channel false] : List (Subscriber Nat)).filterMap
          (deliver 7)) :=
  (dispatch_best_effort _ 7).2.2 (by simp [deliver])

/-- A concrete event with three queue subscribers, the middle one with a closed
receiving end, and eviction enabled. -/
def evChannels : Event Nat :=
  { name := "e",
    subscribers := [Subscriber.channel false, Subscriber.channel true,
      Subscriber.channel false],
    remove_subscriber_on_error := true }

/-- C8: with eviction enabled, a dispatch removes exactly the subscribers whose
delivery failed (applied after the full pass, in descending index order, which
the ascending-collection plus reversed removal loop realises), the subscriber
count drops by exactly the number of failures, and a repeated dispatch to the
evicted event succeeds; with eviction disabled the subscriber list is
unchanged. -/
theorem dispatch_eviction {τ : Type} (e : Event τ) (data : τ) :
    (e.remove_subscriber_on_error = true →
      ((e.dispatch data).2.subscribers
          = e.subscribers.filter (fun s => (deliver data s).isNone))
      ∧ ((e.dispatch data).2.subscriber_count
          + (e.subscribers.filterMap (deliver data)).length
          = e.subscriber_count)
      ∧ (((e.dispatch data).2.dispatch data).1 = Except.ok ()))
    ∧ (e.remove_subscriber_on_error = false →
      (e.dispatch data).2.subscribers = e.subscribers) := by
  refine ⟨fun hev => ?_, fun hev => by simp [Event.dispatch, hev]⟩
  have hsubs : (e.dispatch data).2.subscribers
      = e.subscribers.filter (fun s => (deliver data s).isNone) := by
    simp only [Event.dispatch, hev, if_true]
    exact removeDescending_filter data e.subscribers
  refine ⟨hsubs, ?_, ?_⟩
  · show ((e.dispatch data).2.subscribers).length + _ = e.subscribers.length
    rw [hsubs, length_filterMap_eq_filter]
    exact length_filter_isNone_add (deliver data) e.subscribers
  · have hall : ∀ s ∈ (e.dispatch data).2.subscribers, deliver data s = none := by
      rw [hsubs]
      intro s hs
      have hmem := List.mem_filter.mp hs
      simpa [Option.isNone_iff_eq_none] using hmem.2
    have herr2 : ((e.dispatch data).2.subscribers).filterMap (deliver data) = [] :=
      List.filterMap_eq_nil_iff.mpr hall
    exact dispatch_ok_of_no_failures _ data herr2

/-- Witness for C8: the three-channel event with one closed receiving end —
after dispatch the closed channel is evicted, the count drops from 3 by the one
failure, and a second dispatch succeeds. -/
theorem dispatch_eviction_witness :
    (evChannels.dispatch 0).2.subscribers
        = evChannels.subscribers.filter (fun s => (deliver 0 s).isNone)
    ∧ ((evChannels.dispatch 0).2.subscriber_count
        + (evChannels.subscribers.filterMap (deliver 0)).length
        = evChannels.subscriber_count)
    ∧ (((evChannels.dispatch 0).2.dispatch 0).1 = Except.ok ()) :=
  (dispatch_eviction evChannels 0).1 rfl

/-- C10: the default `Event` is named `"Unnamed Event"` with eviction disabled,
and on any event with eviction disabled a dispatch never changes the subscriber
list or the subscriber count, failures included. -/
theorem event_default_no_eviction :
    (∀ τ : Type, (Event.default τ).name = "Unnamed Event")
    ∧ (∀ τ : Type, (Event.default τ).remove_subscriber_on_error = false)
    ∧ ∀ (τ : Type) (e : Event τ) (data : τ),
        e.remove_subscriber_on_error = false →
        (e.dispatch data).2.subscribers = e.subscribers
        ∧ (e.dispatch data).2.subscriber_count = e.subscriber_count := by
  refine ⟨fun τ => rfl, fun τ => rfl, fun τ e data hev => ?_⟩
  have hsubs : (e.dispatch data).2.subscribers = e.subscribers := by
    simp [Event.dispatch, hev]
  exact ⟨hsubs, by simp [Event.subscriber_count, hsubs]⟩

/-- Witness for C10: a default event with one always-failing closure subscriber
keeps its subscriber after a failed dispatch. -/
theorem event_default_no_eviction_witness :
    (((Event.default Nat).subscribe (fun _ => Except.error "boom")).dispatch 3).2.subscribers
        = ((Event.default Nat).subscribe (fun _ => Except.error "boom")).subscribers
    ∧ (((Event.default Nat).subscribe (fun _ => Except.error "boom")).dispatch 3).2.subscriber_count
        = ((Event.default Nat).subscribe (fun _ => Except.error "boom")).subscriber_count :=
  event_default_no_eviction.2.2 Nat
    ((Event.default Nat).subscribe (fun _ => Except.error "boom")) 3 rfl

/-- Characterisation of the `status_tree` accumulation loop: starting from any
bucket contents, the loop appends to each bucket exactly the lines of the
services its `match` arm selects, in registration order. -/
theorem foldl_bucketsStep (l : List ServiceEntry) :
    ∀ b : Buckets,
      l.foldl bucketsStep b
        = ⟨b.failedEssentials ++ concatLines ((l.filter (fun s =>
              isFailed s.status && s.priority == Priority.Essential)).map serviceLine),
           b.failedOptionals ++ concatLines ((l.filter (fun s =>
              isFailed s.status && s.priority == Priority.Optional)).map serviceLine),
           b.nonFailedEssentials ++ concatLines ((l.filter (fun s =>
              isNonFailed s.status && s.priority == Priority.Essential)).map serviceLine),
           b.nonFailedOptionals ++ concatLines ((l.filter (fun s =>
              isNonFailed s.status && s.priority == Priority.Optional)).map serviceLine),
           b.others ++ concatLines ((l.filter (fun s =>
              !isFailed s.status && !isNonFailed s.status)).map serviceLine)⟩ := by
  induction l with
  | nil =>
    intro b
    cases b
    simp [concatLines]
  | cons s l ih =>
    intro b
    rw [List.foldl_cons, ih]
    cases hst : s.status <;> cases hpr : s.priority <;>
      simp [bucketsStep, isFailed, isNonFailed, hst, hpr, List.filter_cons,
        concatLines, String.append_assoc]

/-- C9: `status_tree` renders exactly the five buckets the spec describes, in
the fixed order failed-essential, failed-optional, non-failed-essential,
non-failed-optional, other — each non-empty bucket as a header line followed by
one line per member, empty buckets omitted. -/
theorem status_tree_refines_spec (m : ManagerState) :
    status_tree m = status_tree_spec m := by
  unfold status_tree status_tree_spec bucketLines
  rw [foldl_bucketsStep]
  simp

end Lum
